import Mathlib

/-!
Verification of the CorrectiveRAG workflow (`src/pipeline/workflow.py`,
`src/pipeline/data_loader.py`, `src/pipeline/grade_documents.py`).

The pipeline is embedded shallowly: every external service (retriever, LLM
grader, question rewriter, web-search tool, RAG generation chain) is an
oracle passed as a function argument; the repository's own control flow
(the node bodies and the static graph built in `CRAGWorkFlow.build_graph`)
is translated line by line.  Fallible calls live in `Except`; the single
exception class `CustomException(e, sys)` used throughout the repository is
the inductive `Exc` below.
-/

namespace CorrectiveRAG

/-- A langchain `Document`.  The workflow code only ever reads or writes
`page_content` (`d.page_content` when grading, `Document(page_content=...)`
when synthesizing the web-search document), so the opaque metadata mapping
is omitted. -/
structure Document where
  page_content : String
  deriving DecidableEq

/-- `CustomException(e, sys)` from `src/exception.py`: the one generic wrapper
exception raised by every `except Exception` block in the repository.  It
carries the underlying error and the originating call site. -/
inductive Exc where
  | customException (err : String) (context : String)
  deriving DecidableEq

/-- The `GraphState` TypedDict of `workflow.py`.  A key of the state dict may
be absent before the step that writes it, so every field is an `Option`. -/
structure GState where
  question : Option String := none
  generation : Option String := none
  web_search : Option String := none
  documents : Option (List Document) := none
  deriving DecidableEq

/-- One result returned by the external web-search tool: either a raw string
or a structured result, the latter with an optional `"content"` field and a
string rendering (`str(d)` in Python, the fallback of
`d.get("content", str(d))`). -/
inductive WebResult where
  | str (sval : String)
  | obj (content : Option String) (srepr : String)
  deriving DecidableEq

/-- `isinstance(d, str)` on a web-search result. -/
def WebResult.isStr : WebResult → Bool
  | .str _ => true
  | .obj _ _ => false

/-- The raw string of a result, used by the `"\n".join(docs)` branch (only
ever applied when every result is a raw string). -/
def WebResult.rawStr : WebResult → String
  | .str sval => sval
  | .obj _ srepr => srepr

/-- `d.get("content", str(d))` on a structured result.  On a raw string this
is an `AttributeError` in Python (`str` has no `.get`), hence the error. -/
def WebResult.getContent : WebResult → Except String String
  | .str _ => .error "AttributeError: str object has no attribute get"
  | .obj content srepr => .ok (content.getD srepr)

/-- The comprehension `[d.get("content", str(d)) for d in docs]`: evaluated
left to right, the first raising element aborts. -/
def getContents : List WebResult → Except String (List String)
  | [] => .ok []
  | d :: ds =>
    match d.getContent with
    | .error e => .error e
    | .ok c =>
      match getContents ds with
      | .error e => .error e
      | .ok cs => .ok (c :: cs)

/-- The join of web-search results in `CRAGWorkFlow.web_search`:
`"\n".join(docs)` when all results are raw strings, otherwise
`"\n".join([d.get("content", str(d)) for d in docs])`. -/
def joinResults (docs : List WebResult) : Except String String :=
  if docs.all WebResult.isStr then
    .ok (String.intercalate "\n" (docs.map WebResult.rawStr))
  else
    match getContents docs with
    | .error e => .error e
    | .ok parts => .ok (String.intercalate "\n" parts)

/-- `self.web_search_tool = TavilySearchResults(max_results=3)` in
`CRAGWorkFlow.__init__`. -/
def webSearchMaxResults : Nat := 3

/-- Modelled from the spec: `TavilySearchResults` is an external tool whose
implementation is not in the repository; per the spec it returns at most
`max_results` results ("top 3 results"), modelled by truncating the oracle's
result list. -/
def tavilyInvoke (oracle : String → Except String (List WebResult))
    (max_results : Nat) (query : String) : Except String (List WebResult) :=
  match oracle query with
  | .error e => .error e
  | .ok docs => .ok (docs.take max_results)

/-- `CRAGWorkFlow.retrieve`: reads `state["question"]`, invokes the retriever
and returns `{"documents": documents, "question": question}`; any exception
is wrapped in `CustomException`. -/
def retrieve (retriever : String → Except String (List Document))
    (state : GState) : Except Exc GState :=
  match state.question with
  | none => .error (.customException "KeyError: question" "retrieve")
  | some question =>
    match retriever question with
    | .error e => .error (.customException e "retrieve")
    | .ok documents =>
      .ok { state with documents := some documents, question := some question }

/-- The per-document loop of `CRAGWorkFlow.grade_documents`: grade each
document in order; keep it in `filtered_docs` when `score.binary_score ==
"yes"`, otherwise set `web_search = "Yes"`.  The flag starts at `"No"`. -/
def gradeLoop (grader : String → String → Except String String)
    (question : String) : List Document → Except String (List Document × String)
  | [] => .ok ([], "No")
  | d :: ds =>
    match grader question d.page_content with
    | .error e => .error e
    | .ok grade =>
      match gradeLoop grader question ds with
      | .error e => .error e
      | .ok (filtered_docs, web_search) =>
        if grade = "yes" then .ok (d :: filtered_docs, web_search)
        else .ok (filtered_docs, "Yes")

/-- `CRAGWorkFlow.grade_documents`: reads `question` and `documents`, runs the
grading loop, and returns `{"documents": filtered_docs, "question": question,
"web_search": web_search}`. -/
def grade_documents (grader : String → String → Except String String)
    (state : GState) : Except Exc GState :=
  match state.question with
  | none => .error (.customException "KeyError: question" "grade_documents")
  | some question =>
    match state.documents with
    | none => .error (.customException "KeyError: documents" "grade_documents")
    | some documents =>
      match gradeLoop grader question documents with
      | .error e => .error (.customException e "grade_documents")
      | .ok (filtered_docs, web_search) =>
        .ok { state with
              documents := some filtered_docs,
              question := some question,
              web_search := some web_search }

/-- `CRAGWorkFlow.transform_query`: reads `question` and `documents`, rewrites
the question via the LLM rewriter chain and returns
`{"documents": documents, "question": better_question}`. -/
def transform_query (rewriter : String → Except String String)
    (state : GState) : Except Exc GState :=
  match state.question with
  | none => .error (.customException "KeyError: question" "transform_query")
  | some question =>
    match state.documents with
    | none => .error (.customException "KeyError: documents" "transform_query")
    | some documents =>
      match rewriter question with
      | .error e => .error (.customException e "transform_query")
      | .ok better_question =>
        .ok { state with
              documents := some documents,
              question := some better_question }

/-- `CRAGWorkFlow.web_search`: reads `question` and `documents`, invokes the
Tavily tool (configured with `max_results=3`), joins the results into one
newline-separated string, wraps it as one `Document` and appends it:
`documents.append(web_results)`. -/
def web_search (searchOracle : String → Except String (List WebResult))
    (state : GState) : Except Exc GState :=
  match state.question with
  | none => .error (.customException "KeyError: question" "web_search")
  | some question =>
    match state.documents with
    | none => .error (.customException "KeyError: documents" "web_search")
    | some documents =>
      match tavilyInvoke searchOracle webSearchMaxResults question with
      | .error e => .error (.customException e "web_search")
      | .ok docs =>
        match joinResults docs with
        | .error e => .error (.customException e "web_search")
        | .ok web_results =>
          .ok { state with
                documents := some (documents ++ [⟨web_results⟩]),
                question := some question }

/-- `CRAGWorkFlow.generate`: reads `question` and `documents`, invokes the RAG
chain and returns `{"documents": documents, "question": question,
"generation": generation}`. -/
def generate (rag_chain : List Document → String → Except String String)
    (state : GState) : Except Exc GState :=
  match state.question with
  | none => .error (.customException "KeyError: question" "generate")
  | some question =>
    match state.documents with
    | none => .error (.customException "KeyError: documents" "generate")
    | some documents =>
      match rag_chain documents question with
      | .error e => .error (.customException e "generate")
      | .ok generation =>
        .ok { state with
              documents := some documents,
              question := some question,
              generation := some generation }

/-- `CRAGWorkFlow.decide_to_generate`: reads `question`, `web_search` and
`documents` from the state and returns only a routing label: the string
`"transform_query"` when `web_search == "Yes"`, otherwise `"generate"`. -/
def decide_to_generate (state : GState) : Except Exc String :=
  match state.question with
  | none => .error (.customException "KeyError: question" "decide_to_generate")
  | some _ =>
    match state.web_search with
    | none => .error (.customException "KeyError: web_search" "decide_to_generate")
    | some web_search =>
      match state.documents with
      | none => .error (.customException "KeyError: documents" "decide_to_generate")
      | some _ =>
        if web_search = "Yes" then .ok "transform_query" else .ok "generate"

/-- The external services the workflow delegates to, one oracle per call
site of `CRAGWorkFlow`. -/
structure Oracles where
  retriever : String → Except String (List Document)
  grader : String → String → Except String String
  rewriter : String → Except String String
  searchTool : String → Except String (List WebResult)
  rag_chain : List Document → String → Except String String

/-- Execution of the compiled graph of `CRAGWorkFlow.build_graph`:
`START → retrieve → grade_documents`, then the conditional edge keyed by
`decide_to_generate` (`"transform_query" ↦ transform_query`,
`"generate" ↦ generate`), then `transform_query → web_search_node →
generate → END`.  Returns the `(node name, state after the node)` trace in
execution order; a node failure aborts the run with its exception. -/
def runCRAG (o : Oracles) (question : String) :
    Except Exc (List (String × GState)) :=
  let s0 : GState := { question := some question }
  match retrieve o.retriever s0 with
  | .error e => .error e
  | .ok s1 =>
    match grade_documents o.grader s1 with
    | .error e => .error e
    | .ok s2 =>
      match decide_to_generate s2 with
      | .error e => .error e
      | .ok route =>
        if route = "transform_query" then
          match transform_query o.rewriter s2 with
          | .error e => .error e
          | .ok s3 =>
            match web_search o.searchTool s3 with
            | .error e => .error e
            | .ok s4 =>
              match generate o.rag_chain s4 with
              | .error e => .error e
              | .ok s5 =>
                .ok [("retrieve", s1), ("grade_documents", s2),
                     ("transform_query", s3), ("web_search_node", s4),
                     ("generate", s5)]
        else
          match generate o.rag_chain s2 with
          | .error e => .error e
          | .ok s5 =>
            .ok [("retrieve", s1), ("grade_documents", s2), ("generate", s5)]

/-- Infallible external services: each oracle always succeeds, returning the
value of a pure function.  The web-search oracle returns raw strings. -/
def pureOracles (retr : String → List Document) (g : String → String → String)
    (rw : String → String) (so : String → List String)
    (rc : List Document → String → String) : Oracles where
  retriever := fun q => .ok (retr q)
  grader := fun q d => .ok (g q d)
  rewriter := fun q => .ok (rw q)
  searchTool := fun q => .ok ((so q).map .str)
  rag_chain := fun ds q => .ok (rc ds q)

/-- The two hardcoded source URLs of `DataLoader.fetch_contents`. -/
def sourceUrls : List String :=
  ["https://medium.com/@fraidoonomarzai99/introduction-to-generative-ai-and-llm-in-depth-aaf4bb5546ff",
   "https://medium.com/@fraidoonomarzai99/retrieval-augmented-generation-rag-in-depth-e90a05c38a02"]

/-- `DataLoader.fetch_contents`: loads each hardcoded URL in order
(`[WebBaseLoader(url).load() for url in urls]`), flattens the per-URL
document lists, and wraps any failure in `CustomException`; the first
failing fetch aborts the whole build. -/
def fetch_contents (loader : String → Except String (List Document)) :
    Except Exc (List Document) :=
  match sourceUrls.mapM loader with
  | .error e => .error (.customException e "fetch_contents")
  | .ok docs => .ok docs.flatten

/-- Modelled from the spec: the text splitter
(`RecursiveCharacterTextSplitter.from_tiktoken_encoder(chunk_size=300,
chunk_overlap=100)` in `DataLoader.store_data`) is an external library whose
implementation is not in the repository; per the spec it splits the token
sequence into chunks of at most 300 tokens with a 100-token overlap between
consecutive chunks, modelled as a sliding window of width 300 and stride
200. -/
def chunk300 {α : Type} (l : List α) : List (List α) :=
  if l.length ≤ 300 then (if l.isEmpty then [] else [l])
  else l.take 300 :: chunk300 (l.drop 200)
termination_by l.length
decreasing_by simp only [List.length_drop]; omega

/-- Two consecutive chunks share exactly their last/first 100 tokens: the
final 100 tokens of the first chunk are precisely the first 100 tokens of
the second. -/
def overlap100 {α : Type} (c c' : List α) : Prop :=
  c.drop (c.length - 100) = c'.take 100 ∧ (c'.take 100).length = 100

/-- The external-call sites of the repository that wrap failures in an
exception (every `except Exception ... raise CustomException(e, sys)`
block embedded above). -/
inductive CallSite where
  | fetchContents
  | retrieveSite
  | gradeDocumentsSite
  | transformQuerySite
  | webSearchSite
  | generateSite
  deriving DecidableEq

/-- The spec's claimed error taxonomy, together with the single class the
code actually uses. -/
inductive ErrorClass where
  | customException
  | ingestionError
  | indexingError
  | retrievalError
  | gradingError
  | rewriteError
  | webSearchError
  | generationError
  deriving DecidableEq

/-- The exception class each call site raises on failure: every `except`
block in the repository raises the same `CustomException` (see `retrieve`,
`grade_documents`, `transform_query`, `web_search`, `generate`,
`fetch_contents` above, whose error type `Exc` has only that one
constructor). -/
def raisedErrorClass : CallSite → ErrorClass := fun _ => .customException

/-- The seven per-call-site error types named by the spec's taxonomy. -/
def specTaxonomy : List ErrorClass :=
  [.ingestionError, .indexingError, .retrievalError, .gradingError,
   .rewriteError, .webSearchError, .generationError]

/-! ### Helper lemmas -/

/-- With an infallible grader, the grading loop keeps exactly the documents
graded `"yes"` (in order) and sets the flag to `"Yes"` unless every document
is graded `"yes"`. -/
theorem gradeLoop_pure (g : String → String → String) (q : String)
    (docs : List Document) :
    gradeLoop (fun a b => .ok (g a b)) q docs =
      .ok (docs.filter (fun d => g q d.page_content = "yes"),
           if docs.all (fun d => g q d.page_content = "yes") then "No"
           else "Yes") := by
  induction docs with
  | nil => rfl
  | cons d ds ih =>
    simp only [gradeLoop, ih]
    by_cases h : g q d.page_content = "yes" <;>
      simp [h, List.filter_cons, List.all_cons]

/-- The first chunk produced from `m` starts with the same 100 tokens as `m`
itself. -/
theorem chunk300_head_take {α : Type} (m c : List α)
    (h : (chunk300 m).head? = some c) : c.take 100 = m.take 100 := by
  rw [chunk300] at h
  by_cases hle : m.length ≤ 300
  · rw [if_pos hle] at h
    by_cases he : m.isEmpty = true
    · rw [if_pos he] at h; simp at h
    · rw [if_neg he] at h
      simp only [List.head?_cons, Option.some.injEq] at h
      rw [h]
  · rw [if_neg hle] at h
    simp only [List.head?_cons, Option.some.injEq] at h
    rw [← h, List.take_take]
    norm_num

/-- Consecutive chunks of the sliding-window splitter overlap in exactly 100
tokens. -/
theorem chunk300_chain {α : Type} (l : List α) :
    List.Chain' overlap100 (chunk300 l) := by
  by_cases hle : l.length ≤ 300
  · rw [chunk300, if_pos hle]
    by_cases he : l.isEmpty = true
    · rw [if_pos he]; exact List.chain'_nil
    · rw [if_neg he]; exact List.chain'_singleton l
  · rw [chunk300, if_neg hle]
    rw [List.chain'_cons']
    refine ⟨?_, chunk300_chain (l.drop 200)⟩
    intro c hc
    have h1 : c.take 100 = (l.drop 200).take 100 :=
      chunk300_head_take (l.drop 200) c (Option.mem_def.mp hc)
    constructor
    · have hlen : (l.take 300).length = 300 := by
        rw [List.length_take]; omega
      rw [hlen, h1, List.drop_take]
    · rw [h1, List.length_take, List.length_drop]
      omega
termination_by l.length
decreasing_by simp only [List.length_drop]; omega

/-- Every token of the source sequence appears in at least one chunk. -/
theorem chunk300_cover {α : Type} (l : List α) :
    ∀ x ∈ l, ∃ c ∈ chunk300 l, x ∈ c := by
  by_cases hle : l.length ≤ 300
  · intro x hx
    rw [chunk300, if_pos hle]
    have he : l.isEmpty = false := by
      cases l
      · simp at hx
      · rfl
    rw [he]
    exact ⟨l, by simp, hx⟩
  · intro x hx
    rw [chunk300, if_neg hle]
    have hsplit : x ∈ l.take 300 ++ l.drop 300 := by
      rw [List.take_append_drop]; exact hx
    rcases List.mem_append.mp hsplit with hx' | hx'
    · exact ⟨l.take 300, List.mem_cons_self _ _, hx'⟩
    · have hx200 : x ∈ l.drop 200 := by
        have : l.drop 300 = (l.drop 200).drop 100 := by
          rw [List.drop_drop]
        exact (List.drop_sublist 100 (l.drop 200)).subset (this ▸ hx')
      obtain ⟨c, hc, hxc⟩ := chunk300_cover (l.drop 200) x hx200
      exact ⟨c, List.mem_cons_of_mem _ hc, hxc⟩
termination_by l.length
decreasing_by simp only [List.length_drop]; omega

/-- With an infallible grader, `grade_documents` returns the filtered
documents and the aggregated flag from `gradeLoop`, leaving `generation`
untouched. -/
theorem grade_documents_pure (g : String → String → String) (q : String)
    (docs : List Document) (gen ws0 : Option String) :
    grade_documents (fun a b => .ok (g a b)) ⟨some q, gen, ws0, some docs⟩ =
      .ok ⟨some q, gen,
           some (if docs.all (fun d => g q d.page_content = "yes") then "No"
                 else "Yes"),
           some (docs.filter (fun d => g q d.page_content = "yes"))⟩ := by
  simp only [grade_documents, gradeLoop_pure]

/-- When `decide_to_generate` returns a label, the label is
`"transform_query"` exactly when the flag is `"Yes"` and `"generate"`
otherwise. -/
theorem decide_to_generate_cases (s : GState) (r : String)
    (hr : decide_to_generate s = .ok r) :
    s.web_search.isSome = true ∧
    (r = "transform_query" ↔ s.web_search = some "Yes") ∧
    (r = "generate" ↔ ¬s.web_search = some "Yes") := by
  obtain ⟨oq, og, ows, od⟩ := s
  cases oq with
  | none => exact absurd hr (by simp [decide_to_generate])
  | some q =>
    cases ows with
    | none => exact absurd hr (by simp [decide_to_generate])
    | some ws =>
      cases od with
      | none => exact absurd hr (by simp [decide_to_generate])
      | some docs =>
        simp only [decide_to_generate] at hr
        by_cases hws : ws = "Yes"
        · subst hws
          rw [if_pos rfl, Except.ok.injEq] at hr
          subst hr
          refine ⟨rfl, by simp, by simp⟩
        · rw [if_neg hws, Except.ok.injEq] at hr
          subst hr
          refine ⟨rfl, ?_, ?_⟩
          · simp only [Option.some.injEq]
            constructor
            · intro h
              exact absurd h (by decide)
            · intro h
              exact absurd h hws
          · simp only [Option.some.injEq]
            constructor
            · intro _
              exact fun h => hws h
            · intro _
              trivial

/-- Joining all-string web results is a plain newline join. -/
theorem joinResults_strs (l : List String) :
    joinResults (l.map .str) = .ok (String.intercalate "\n" l) := by
  rw [joinResults, if_pos]
  · congr 1
    congr 1
    rw [List.map_map]
    exact List.map_id'' (fun _ => rfl) l
  · exact List.all_eq_true.mpr fun x hx => by
      obtain ⟨y, _, rfl⟩ := List.mem_map.mp hx
      rfl

/-- Extracting the `"content"` field of all-structured results (each with the
field present) succeeds and yields the contents in order. -/
theorem getContents_objs (ps : List (String × String)) :
    getContents (ps.map (fun p => WebResult.obj (some p.1) p.2))
      = .ok (ps.map Prod.fst) := by
  induction ps with
  | nil => rfl
  | cons p ps ih =>
    rw [List.map_cons, getContents, ih]
    rfl

/-- Joining all-structured web results (each with a `"content"` field) joins
the contents with newlines. -/
theorem joinResults_objs (ps : List (String × String)) :
    joinResults (ps.map (fun p => WebResult.obj (some p.1) p.2)) =
      .ok (String.intercalate "\n" (ps.map Prod.fst)) := by
  cases ps with
  | nil => rfl
  | cons p ps =>
    rw [joinResults, if_neg, getContents_objs]
    intro hcon
    rw [List.map_cons, List.all_cons] at hcon
    exact absurd hcon (by simp [WebResult.isStr])

/-- Full characterisation of the graph run with infallible external
services: when every retrieved document is graded `"yes"` the trace is
`retrieve, grade_documents, generate`; otherwise it is `retrieve,
grade_documents, transform_query, web_search_node, generate` with the one
synthesized web document appended. -/
theorem runCRAG_pure (retr : String → List Document) (g : String → String → String)
    (rewr : String → String) (so : String → List String)
    (rc : List Document → String → String) (q : String) :
    runCRAG (pureOracles retr g rewr so rc) q =
      if (retr q).all (fun d => g q d.page_content = "yes") then
        .ok [("retrieve", ⟨some q, none, none, some (retr q)⟩),
             ("grade_documents",
              ⟨some q, none, some "No",
               some ((retr q).filter (fun d => g q d.page_content = "yes"))⟩),
             ("generate",
              ⟨some q,
               some (rc ((retr q).filter (fun d => g q d.page_content = "yes")) q),
               some "No",
               some ((retr q).filter (fun d => g q d.page_content = "yes"))⟩)]
      else
        .ok [("retrieve", ⟨some q, none, none, some (retr q)⟩),
             ("grade_documents",
              ⟨some q, none, some "Yes",
               some ((retr q).filter (fun d => g q d.page_content = "yes"))⟩),
             ("transform_query",
              ⟨some (rewr q), none, some "Yes",
               some ((retr q).filter (fun d => g q d.page_content = "yes"))⟩),
             ("web_search_node",
              ⟨some (rewr q), none, some "Yes",
               some ((retr q).filter (fun d => g q d.page_content = "yes") ++
                 [⟨String.intercalate "\n" ((so (rewr q)).take 3)⟩])⟩),
             ("generate",
              ⟨some (rewr q),
               some (rc ((retr q).filter (fun d => g q d.page_content = "yes") ++
                 [⟨String.intercalate "\n" ((so (rewr q)).take 3)⟩]) (rewr q)),
               some "Yes",
               some ((retr q).filter (fun d => g q d.page_content = "yes") ++
                 [⟨String.intercalate "\n" ((so (rewr q)).take 3)⟩])⟩)] := by
  by_cases hb : (retr q).all (fun d => g q d.page_content = "yes") = true
  · rw [if_pos hb]
    simp only [runCRAG, pureOracles, retrieve, grade_documents_pure, hb,
      if_true, decide_to_generate, generate]
    simp
  · rw [if_neg hb]
    rw [Bool.not_eq_true] at hb
    simp only [runCRAG, pureOracles, retrieve, grade_documents_pure, hb,
      Bool.false_eq_true, if_false, decide_to_generate, transform_query,
      web_search, tavilyInvoke, webSearchMaxResults, generate]
    rw [← List.map_take, joinResults_strs]
    simp

/-! ### Claim theorems -/

/-- C1: whenever the grading step completes, the workflow-level
needs-web-search flag is set (its literal set value in the code is `"Yes"`)
if and only if at least one retrieved document received a grade other than
the literal `"yes"`; when every document is graded `"yes"` the flag keeps
its unset value `"No"`, so no web search is triggered. -/
theorem grading_sets_flag_iff_some_not_yes
    (g : String → String → String) (q : String) (docs : List Document)
    (gen ws0 : Option String) (s' : GState)
    (h : grade_documents (fun a b => .ok (g a b))
        ⟨some q, gen, ws0, some docs⟩ = .ok s') :
    (s'.web_search = some "Yes" ↔ ∃ d ∈ docs, g q d.page_content ≠ "yes") ∧
    ((∀ d ∈ docs, g q d.page_content = "yes") → s'.web_search = some "No") := by
  rw [grade_documents_pure, Except.ok.injEq] at h
  subst h
  constructor
  · by_cases hall : docs.all (fun d => g q d.page_content = "yes") = true
    · rw [if_pos hall]
      simp only [List.all_eq_true, decide_eq_true_eq] at hall
      constructor
      · intro hc
        exact absurd hc (by simp)
      · rintro ⟨d, hd, hne⟩
        exact absurd (hall d hd) hne
    · rw [if_neg hall]
      simp only [List.all_eq_true, decide_eq_true_eq] at hall
      push_neg at hall
      constructor
      · intro _
        exact hall
      · intro _
        rfl
  · intro hall
    have hb : docs.all (fun d => g q d.page_content = "yes") = true := by
      simp only [List.all_eq_true, decide_eq_true_eq]
      exact hall
    rw [if_pos hb]

/-- C1 witness: a concrete run where one of two documents is graded `"no"`,
so the flag is `"Yes"`. -/
theorem grading_sets_flag_iff_some_not_yes_witness :
    ((⟨some "q", none, some "Yes", some [⟨"a"⟩]⟩ : GState).web_search = some "Yes" ↔
      ∃ d ∈ [(⟨"a"⟩ : Document), ⟨"b"⟩],
        (fun _ c => if c = "a" then "yes" else "no") "q" d.page_content ≠ "yes") ∧
    ((∀ d ∈ [(⟨"a"⟩ : Document), ⟨"b"⟩],
        (fun _ c => if c = "a" then "yes" else "no") "q" d.page_content = "yes") →
      (⟨some "q", none, some "Yes", some [⟨"a"⟩]⟩ : GState).web_search = some "No") :=
  grading_sets_flag_iff_some_not_yes
    (fun _ c => if c = "a" then "yes" else "no") "q" [⟨"a"⟩, ⟨"b"⟩]
    none none ⟨some "q", none, some "Yes", some [⟨"a"⟩]⟩ rfl

/-- C4: the grading step only filters: whenever it completes, its output
`documents` field is exactly the subsequence of the input documents graded
`"yes"`, in the original order (a sublist of the input), and every output
document already occurs in the input, so no document (and no duplicate) is
introduced. -/
theorem grading_only_filters
    (g : String → String → String) (q : String) (docs : List Document)
    (gen ws0 : Option String) (s' : GState)
    (h : grade_documents (fun a b => .ok (g a b))
        ⟨some q, gen, ws0, some docs⟩ = .ok s') :
    s'.documents = some (docs.filter (fun d => g q d.page_content = "yes")) ∧
    (docs.filter (fun d => g q d.page_content = "yes")).Sublist docs ∧
    ∀ d ∈ docs.filter (fun d => g q d.page_content = "yes"), d ∈ docs := by
  rw [grade_documents_pure, Except.ok.injEq] at h
  subst h
  exact ⟨rfl, List.filter_sublist docs, fun d hd => List.mem_of_mem_filter hd⟩

/-- C4 witness: the concrete grading run of the C1 witness, checked against
the filter characterisation. -/
theorem grading_only_filters_witness :
    (⟨some "q", none, some "Yes", some [⟨"a"⟩]⟩ : GState).documents =
      some ([(⟨"a"⟩ : Document), ⟨"b"⟩].filter
        (fun d => (fun _ c => if c = "a" then "yes" else "no") "q" d.page_content = "yes")) ∧
    ([(⟨"a"⟩ : Document), ⟨"b"⟩].filter
        (fun d => (fun _ c => if c = "a" then "yes" else "no") "q" d.page_content = "yes")).Sublist
      [(⟨"a"⟩ : Document), ⟨"b"⟩] ∧
    ∀ d ∈ [(⟨"a"⟩ : Document), ⟨"b"⟩].filter
        (fun d => (fun _ c => if c = "a" then "yes" else "no") "q" d.page_content = "yes"),
      d ∈ [(⟨"a"⟩ : Document), ⟨"b"⟩] :=
  grading_only_filters (fun _ c => if c = "a" then "yes" else "no") "q"
    [⟨"a"⟩, ⟨"b"⟩] none none ⟨some "q", none, some "Yes", some [⟨"a"⟩]⟩ rfl

/-- C10: when retrieval returns an empty document sequence, the grading step
returns an empty filtered list with the needs-web-search flag at its initial
value `"No"`, and the graph goes directly to `generate` with zero documents:
the web-search fallback is never triggered by an empty retrieval result. -/
theorem empty_retrieval_goes_direct
    (g : String → String → String) (rewr : String → String)
    (so : String → List String) (rc : List Document → String → String)
    (q : String) :
    runCRAG (pureOracles (fun _ => []) g rewr so rc) q =
      .ok [("retrieve", ⟨some q, none, none, some []⟩),
           ("grade_documents", ⟨some q, none, some "No", some []⟩),
           ("generate", ⟨some q, some (rc [] q), some "No", some []⟩)] := rfl

/-- C9: the branch decision step is a pure router: `decide_to_generate`
returns only a routing label — `"transform_query"` exactly when the
`web_search` flag is `"Yes"`, otherwise `"generate"` — and its type
`GState → Except Exc String` carries no state update, so every field of the
workflow state (question, documents, web_search, generation) is left
unchanged by the branch.  The label is determined by the flag alone: any
other state with the same flag (and the checked keys present) routes to the
same label. -/
theorem decide_to_generate_pure_router (s s' : GState) (r : String)
    (hr : decide_to_generate s = .ok r)
    (hq' : s'.question.isSome = true) (hd' : s'.documents.isSome = true)
    (hws : s.web_search = s'.web_search) :
    (r = "transform_query" ∨ r = "generate") ∧
    (r = "transform_query" ↔ s.web_search = some "Yes") ∧
    decide_to_generate s' = .ok r := by
  obtain ⟨hsome, hiff1, hiff2⟩ := decide_to_generate_cases s r hr
  refine ⟨?_, hiff1, ?_⟩
  · by_cases h : s.web_search = some "Yes"
    · exact Or.inl (hiff1.mpr h)
    · exact Or.inr (hiff2.mpr h)
  · obtain ⟨oq', og', ows', od'⟩ := s'
    cases oq' with
    | none => simp at hq'
    | some q' =>
      cases od' with
      | none => simp at hd'
      | some docs' =>
        cases ows' with
        | none =>
          rw [hws] at hsome
          simp at hsome
        | some ws' =>
          simp only [decide_to_generate]
          by_cases h : ws' = "Yes"
          · subst h
            rw [if_pos rfl]
            have hrt : r = "transform_query" := hiff1.mpr (by rw [hws])
            rw [hrt]
          · rw [if_neg h]
            have hrg : r = "generate" := by
              refine hiff2.mpr ?_
              intro hcon
              rw [hws] at hcon
              simp only [Option.some.injEq] at hcon
              exact h hcon
            rw [hrg]

/-- C9 witness: a concrete routing with flag `"Yes"`, checked against a
second state that differs in every other field. -/
theorem decide_to_generate_pure_router_witness :
    (("transform_query" : String) = "transform_query" ∨
      ("transform_query" : String) = "generate") ∧
    (("transform_query" : String) = "transform_query" ↔
      (⟨some "q", none, some "Yes", some []⟩ : GState).web_search = some "Yes") ∧
    decide_to_generate ⟨some "p", some "gen", some "Yes", some [⟨"d"⟩]⟩ =
      .ok "transform_query" :=
  decide_to_generate_pure_router ⟨some "q", none, some "Yes", some []⟩
    ⟨some "p", some "gen", some "Yes", some [⟨"d"⟩]⟩ "transform_query"
    rfl rfl rfl rfl

/-- C3: for every run in which every retrieved document is graded `"yes"`,
the graph proceeds from `grade_documents` directly to `generate` and never
invokes the query rewriter or the web-search node; and the conditional edge
branches on exactly the needs-web-search flag being set (`"Yes"`). -/
theorem all_yes_direct_generate
    (retr : String → List Document) (g : String → String → String)
    (rewr : String → String) (so : String → List String)
    (rc : List Document → String → String) (q : String)
    (hall : ∀ d ∈ retr q, g q d.page_content = "yes") :
    (runCRAG (pureOracles retr g rewr so rc) q).map (List.map Prod.fst) =
      .ok ["retrieve", "grade_documents", "generate"] ∧
    (∀ s r, decide_to_generate s = .ok r →
      (r = "transform_query" ↔ s.web_search = some "Yes")) := by
  constructor
  · have hb : (retr q).all (fun d => g q d.page_content = "yes") = true := by
      simp only [List.all_eq_true, decide_eq_true_eq]
      exact hall
    rw [runCRAG_pure, if_pos hb]
    rfl
  · intro s r hr
    exact (decide_to_generate_cases s r hr).2.1

/-- C3 witness: one document graded `"yes"`, direct path to generate. -/
theorem all_yes_direct_generate_witness :
    (runCRAG (pureOracles (fun _ => [⟨"a"⟩]) (fun _ _ => "yes") (fun s => s)
        (fun _ => []) (fun _ _ => "ans")) "q").map (List.map Prod.fst) =
      .ok ["retrieve", "grade_documents", "generate"] ∧
    (∀ s r, decide_to_generate s = .ok r →
      (r = "transform_query" ↔ s.web_search = some "Yes")) :=
  all_yes_direct_generate (fun _ => [⟨"a"⟩]) (fun _ _ => "yes") (fun s => s)
    (fun _ => []) (fun _ _ => "ans") "q" (by decide)

/-- C2: for every run whose retrieved document set contains at least one
document graded other than `"yes"`, the graph visits `transform_query` and
then `web_search_node` before `generate`, and the document sequence handed
to `generate` has length equal to the number of documents graded `"yes"`
plus one (the single synthesized web-search document). -/
theorem any_no_web_search_path
    (retr : String → List Document) (g : String → String → String)
    (rewr : String → String) (so : String → List String)
    (rc : List Document → String → String) (q : String)
    (hex : ∃ d ∈ retr q, g q d.page_content ≠ "yes") :
    ∃ s1 s2 s3 s4 s5,
      runCRAG (pureOracles retr g rewr so rc) q =
        .ok [("retrieve", s1), ("grade_documents", s2), ("transform_query", s3),
             ("web_search_node", s4), ("generate", s5)] ∧
      ∃ l, s4.documents = some l ∧ s5.documents = some l ∧
        l.length = (retr q).countP (fun d => g q d.page_content = "yes") + 1 := by
  have hb : (retr q).all (fun d => g q d.page_content = "yes") = false := by
    rw [List.all_eq_false]
    obtain ⟨d, hd, hne⟩ := hex
    exact ⟨d, hd, by simpa using hne⟩
  have hrun := runCRAG_pure retr g rewr so rc q
  rw [if_neg (by simp [hb])] at hrun
  refine ⟨_, _, _, _, _, hrun, _, rfl, rfl, ?_⟩
  rw [List.length_append, List.countP_eq_length_filter]
  rfl

/-- C2 witness: the single retrieved document is graded `"no"`, so the run
takes the web-search path and generate receives exactly one document. -/
theorem any_no_web_search_path_witness :
    ∃ s1 s2 s3 s4 s5,
      runCRAG (pureOracles (fun _ => [⟨"bad"⟩]) (fun _ _ => "no") (fun s => s)
          (fun _ => ["w1", "w2"]) (fun _ _ => "ans")) "q" =
        .ok [("retrieve", s1), ("grade_documents", s2), ("transform_query", s3),
             ("web_search_node", s4), ("generate", s5)] ∧
      ∃ l, s4.documents = some l ∧ s5.documents = some l ∧
        l.length = ((fun (_ : String) => [(⟨"bad"⟩ : Document)]) "q").countP
          (fun d => (fun (_ _ : String) => "no") "q" d.page_content = "yes") + 1 :=
  any_no_web_search_path (fun _ => [⟨"bad"⟩]) (fun _ _ => "no") (fun s => s)
    (fun _ => ["w1", "w2"]) (fun _ _ => "ans") "q" (by decide)

/-- C6: in every run with infallible services, the `generation` field is
unset (`none`) in every state of the trace before the terminal node, the
last node of the trace is `generate`, and its state — the one the halted
graph exposes — is the only one carrying a generation: the field is written
exactly once, by the terminal step. -/
theorem generation_written_once_terminal
    (retr : String → List Document) (g : String → String → String)
    (rewr : String → String) (so : String → List String)
    (rc : List Document → String → String) (q : String) :
    ∃ t, runCRAG (pureOracles retr g rewr so rc) q = .ok t ∧
      t ≠ [] ∧
      (∀ p ∈ t.dropLast, p.2.generation = none) ∧
      ∃ sf, t.getLast? = some ("generate", sf) ∧ sf.generation.isSome = true := by
  by_cases hb : (retr q).all (fun d => g q d.page_content = "yes") = true
  · have hrun := runCRAG_pure retr g rewr so rc q
    rw [if_pos hb] at hrun
    refine ⟨_, hrun, by simp, ?_, ⟨_, rfl, rfl⟩⟩
    intro p hp
    rcases List.mem_cons.mp hp with rfl | hp
    · rfl
    · rcases List.mem_cons.mp hp with rfl | hp
      · rfl
      · simp at hp
  · have hrun := runCRAG_pure retr g rewr so rc q
    rw [if_neg hb] at hrun
    refine ⟨_, hrun, by simp, ?_, ⟨_, rfl, rfl⟩⟩
    intro p hp
    rcases List.mem_cons.mp hp with rfl | hp
    · rfl
    · rcases List.mem_cons.mp hp with rfl | hp
      · rfl
      · rcases List.mem_cons.mp hp with rfl | hp
        · rfl
        · rcases List.mem_cons.mp hp with rfl | hp
          · rfl
          · simp at hp

/-- C6 witness: a concrete run checked against the write-once property. -/
theorem generation_written_once_terminal_witness :
    ∃ t, runCRAG (pureOracles (fun _ => [⟨"a"⟩, ⟨"b"⟩])
        (fun _ c => if c = "a" then "yes" else "no") (fun s => s)
        (fun _ => ["w"]) (fun _ _ => "ans")) "q" = .ok t ∧
      t ≠ [] ∧
      (∀ p ∈ t.dropLast, p.2.generation = none) ∧
      ∃ sf, t.getLast? = some ("generate", sf) ∧ sf.generation.isSome = true :=
  generation_written_once_terminal (fun _ => [⟨"a"⟩, ⟨"b"⟩])
    (fun _ c => if c = "a" then "yes" else "no") (fun s => s)
    (fun _ => ["w"]) (fun _ _ => "ans") "q"

/-- C5: for every state reaching the web-search step, the step requests at
most 3 results (`max_results=3`, modelled as truncation by the tool), joins
the results into one newline-separated string — the raw strings directly
when all results are strings, otherwise each result's `"content"` field —
wraps that string as exactly one synthetic `Document`, and appends it to
the existing document sequence without removing or reordering any existing
document. -/
theorem web_search_appends_one_document
    (so : String → List WebResult) (q : String) (docs : List Document)
    (gen ws0 : Option String) :
    webSearchMaxResults = 3 ∧
    (∀ strs : List String, so q = strs.map .str →
      web_search (fun a => .ok (so a)) ⟨some q, gen, ws0, some docs⟩ =
        .ok ⟨some q, gen, ws0,
             some (docs ++ [⟨String.intercalate "\n" (strs.take 3)⟩])⟩) ∧
    (∀ ps : List (String × String),
      so q = ps.map (fun p => .obj (some p.1) p.2) →
      web_search (fun a => .ok (so a)) ⟨some q, gen, ws0, some docs⟩ =
        .ok ⟨some q, gen, ws0,
             some (docs ++
               [⟨String.intercalate "\n" ((ps.take 3).map Prod.fst)⟩])⟩) := by
  refine ⟨rfl, ?_, ?_⟩
  · intro strs hso
    simp only [web_search, tavilyInvoke, webSearchMaxResults, hso]
    rw [← List.map_take, joinResults_strs]
  · intro ps hso
    simp only [web_search, tavilyInvoke, webSearchMaxResults, hso]
    rw [← List.map_take, joinResults_objs, List.map_take]

/-- C5 witness: an empty result list (vacuously all strings), producing the
single synthetic document with empty content appended after the existing
document. -/
theorem web_search_appends_one_document_witness :
    web_search (fun a => .ok ((fun (_ : String) => ([] : List WebResult)) a))
        ⟨some "q", none, some "Yes", some [⟨"d"⟩]⟩ =
      .ok ⟨some "q", none, some "Yes",
           some ([(⟨"d"⟩ : Document)] ++
             [⟨String.intercalate "\n" (([] : List String).take 3)⟩])⟩ :=
  (web_search_appends_one_document (fun _ => []) "q" [⟨"d"⟩] none
    (some "Yes")).2.1 [] rfl

/-- C7: splitting a token sequence with chunk size 300 and overlap 100
(sliding-window model of the external splitter configured in
`DataLoader.store_data`) produces a chunk sequence in which every pair of
consecutive chunks shares exactly 100 tokens — the last 100 tokens of one
chunk are exactly the first 100 tokens of the next — and every token of the
source appears in at least one chunk. -/
theorem chunking_overlap_and_cover {α : Type} (l : List α) :
    List.Chain' overlap100 (chunk300 l) ∧
    ∀ x ∈ l, ∃ c ∈ chunk300 l, x ∈ c :=
  ⟨chunk300_chain l, chunk300_cover l⟩

/-- C7 witness: the chunking properties evaluated on a 450-token source. -/
theorem chunking_overlap_and_cover_witness :
    List.Chain' overlap100 (chunk300 (List.range 450)) ∧
    ∀ x ∈ List.range 450, ∃ c ∈ chunk300 (List.range 450), x ∈ c :=
  chunking_overlap_and_cover (List.range 450)

/-- C8 counterexample: the claim that every failing external call raises a
distinct, per-call-site error type from the taxonomy is false on the code:
the retrieval call site and the ingestion call site are distinct call sites
raising the same exception class, and that class — the generic
`CustomException` — is not one of the seven taxonomy types. -/
theorem error_taxonomy_counterexample :
    raisedErrorClass .retrieveSite = raisedErrorClass .fetchContents ∧
    CallSite.retrieveSite ≠ CallSite.fetchContents ∧
    raisedErrorClass .retrieveSite ∉ specTaxonomy := by
  decide

/-- C8 (amended): every failing external call raises the single generic
`CustomException`, wrapping the underlying service failure together with
its originating context, with no local recovery: the failure immediately
aborts the run and is surfaced to the caller, as witnessed at each of the
embedded call sites and by the whole-run propagation of a retrieval
failure. -/
theorem error_handling_single_generic_exception
    (e q : String) (docs : List Document) (d : Document)
    (gen ws0 : Option String)
    (g : String → String → String) (rewr : String → String)
    (so : String → List String) (rc : List Document → String → String) :
    (∀ site : CallSite, raisedErrorClass site = ErrorClass.customException) ∧
    fetch_contents (fun _ => .error e) =
      .error (.customException e "fetch_contents") ∧
    retrieve (fun _ => .error e) ⟨some q, gen, ws0, some docs⟩ =
      .error (.customException e "retrieve") ∧
    grade_documents (fun _ _ => .error e) ⟨some q, gen, ws0, some (d :: docs)⟩ =
      .error (.customException e "grade_documents") ∧
    transform_query (fun _ => .error e) ⟨some q, gen, ws0, some docs⟩ =
      .error (.customException e "transform_query") ∧
    web_search (fun _ => .error e) ⟨some q, gen, ws0, some docs⟩ =
      .error (.customException e "web_search") ∧
    generate (fun _ _ => .error e) ⟨some q, gen, ws0, some docs⟩ =
      .error (.customException e "generate") ∧
    runCRAG { retriever := fun _ => .error e,
              grader := fun a b => .ok (g a b),
              rewriter := fun a => .ok (rewr a),
              searchTool := fun a => .ok ((so a).map .str),
              rag_chain := fun ds a => .ok (rc ds a) } q =
      .error (.customException e "retrieve") :=
  ⟨fun _ => rfl, rfl, rfl, rfl, rfl, rfl, rfl, rfl⟩

end CorrectiveRAG
